import Mathlib

/-!
Verification of the coloromo repository (`coloromo/color.py`,
`coloromo/__init__.py`) against its natural-language specification.

The Python source is shallowly embedded: floating-point arithmetic is
modelled over the real numbers; operations that can raise at run time
(float division by a zero divisor, a fractional power of a negative base,
which Python promotes to a complex result in violation of the declared
`float` return type, and the explicit `ValueError` of
`radians_to_degrees`) are modelled in the `Except` monad.
-/

namespace Coloromo

/-- Run-time failures of the embedded Python code. -/
inductive PyErr where
  | zeroDivision : PyErr
  | valueError : PyErr
  | complexPow : PyErr
deriving DecidableEq

open Classical in
/-- Python float division `x / y`: raises `ZeroDivisionError` when `y == 0`. -/
noncomputable def fdiv (x y : ℝ) : Except PyErr ℝ :=
  if y = 0 then Except.error PyErr.zeroDivision else Except.ok (x / y)

open Classical in
/-- Python `x ** 0.5`: a real square root for `x ≥ 0`; for `x < 0` the result
is not a float (Python silently returns a complex number), modelled as an
error. -/
noncomputable def fsqrt (x : ℝ) : Except PyErr ℝ :=
  if x < 0 then Except.error PyErr.complexPow else Except.ok (Real.sqrt x)

/-- `math.degrees`. -/
noncomputable def degrees (x : ℝ) : ℝ := x * (180 / Real.pi)

/-- `math.radians`. -/
noncomputable def radians (x : ℝ) : ℝ := x * (Real.pi / 180)

/-- `CIE.TAU = 2 * m.pi`. -/
noncomputable def TAU : ℝ := 2 * Real.pi

/-- `math.atan2 y x`, embedded as the argument of the complex number
`x + y*i`; its value lies in `(-pi, pi]`. -/
noncomputable def atan2 (y x : ℝ) : ℝ := Complex.arg ⟨x, y⟩

open Classical in
/-- `CIE.radians_to_degrees` from `coloromo/color.py`. -/
noncomputable def radians_to_degrees (angle : ℝ) : Except PyErr ℝ :=
  if angle > Real.pi ∨ angle < -Real.pi then Except.error PyErr.valueError
  else Except.ok (degrees (if angle ≥ 0 then angle else angle + TAU))

/-- The branch of `radians_to_degrees` that converts an in-range angle. -/
noncomputable def pyDeg (angle : ℝ) : ℝ :=
  degrees (if angle ≥ 0 then angle else angle + TAU)

end Coloromo

namespace Coloromo

/-- An RGB triple as handled by `Palette` (channels are Python ints). -/
abbrev RGB := ℤ × ℤ × ℤ

/-- An element of the Python `set` held in `Palette.colors`: a Python set is
heterogeneous, so it can hold either plain integers (unpacked channel
values) or RGB tuples. -/
inductive PyObj where
  | int : ℤ → PyObj
  | tup : ℤ → ℤ → ℤ → PyObj
deriving DecidableEq

/-- Insertion into a Python set, modelled on lists: a no-op when the element
is already present. -/
def setAdd (s : List PyObj) (x : PyObj) : List PyObj :=
  if x ∈ s then s else s ++ [x]

/-- Iterating over a Python tuple `(r, g, b)` yields its three components. -/
def tupleElems (c : RGB) : List PyObj :=
  [PyObj.int c.1, PyObj.int c.2.1, PyObj.int c.2.2]

/-- `Palette.__init__`: the palette starts with an empty member set. -/
def Palette.init : List PyObj := []

/-- `Palette.add` from `coloromo/color.py`: `self.colors.update(*colors)`.
The star unpacks the iterable, so each color tuple is passed to `update` as
its own iterable and its integer components are inserted one by one. -/
def Palette.add (s : List PyObj) (colors : List RGB) : List PyObj :=
  colors.foldl (fun acc c => (tupleElems c).foldl setAdd acc) s

/-- `CIE.SIGMA = 6 / 29`. -/
noncomputable def SIGMA : ℝ := 6 / 29

/-- `CIE.SIGMA_SQUARED`. -/
noncomputable def SIGMA_SQUARED : ℝ := SIGMA ^ 2

/-- `CIE.SIGMA_CUBED`. -/
noncomputable def SIGMA_CUBED : ℝ := SIGMA ^ 3

/-- `CIE.ONE_THIRD`. -/
noncomputable def ONE_THIRD : ℝ := 1 / 3

/-- `CIE.FOUR_TWENTYNINTHS`. -/
noncomputable def FOUR_TWENTYNINTHS : ℝ := 4 / 29

/-- `CIE.TWENTY_FIVE_POWER_SEVEN = 25 ** 7`. -/
noncomputable def TWENTY_FIVE_POWER_SEVEN : ℝ := 25 ^ 7

/-- `CIE.X_n` (standard illuminant D65). -/
noncomputable def X_n : ℝ := 0.950489

/-- `CIE.Y_n`. -/
noncomputable def Y_n : ℝ := 1

/-- `CIE.Z_n`. -/
noncomputable def Z_n : ℝ := 1.08884

/-- `CIE.K_L = K_C = K_H = 1`. -/
noncomputable def K_L : ℝ := 1

/-- See `K_L`. -/
noncomputable def K_C : ℝ := 1

/-- See `K_L`. -/
noncomputable def K_H : ℝ := 1

open Classical in
/-- The local `inverse_gamma` of `CIE._srgb_to_ciexyz`:
`u / 12.92 if u <= 0.04045 else ((u + 0.055) / 1.055) ** 2.4`. -/
noncomputable def inverse_gamma (u : ℝ) : ℝ :=
  if u ≤ 0.04045 then u / 12.92 else ((u + 0.055) / 1.055) ^ (2.4 : ℝ)

/-- `CIE._srgb_to_ciexyz`.  The source computes
`x, y, z = (sum(v * w for w in row) for v, row in zip((r, g, b), MATRIX))`:
`zip` pairs each linearised channel with one whole row of
`SRGB_TO_CIEXYZ_MATRIX`, so each coordinate is that single channel times the
sum of its row, not the matrix-vector product. -/
noncomputable def srgb_to_ciexyz (r g b : ℕ) : ℝ × ℝ × ℝ :=
  let lr := inverse_gamma ((r : ℝ) / 255)
  let lg := inverse_gamma ((g : ℝ) / 255)
  let lb := inverse_gamma ((b : ℝ) / 255)
  (lr * 0.41239080 + lr * 0.35758434 + lr * 0.18048079,
   lg * 0.21263901 + lg * 0.71516868 + lg * 0.07219232,
   lb * 0.01933082 + lb * 0.11919478 + lb * 0.95053215)

open Classical in
/-- The local `f` of `CIE._ciexyz_to_lab`. -/
noncomputable def f_lab (t : ℝ) : ℝ :=
  if t > SIGMA_CUBED then t ^ ONE_THIRD
  else t * ONE_THIRD / SIGMA_SQUARED + FOUR_TWENTYNINTHS

/-- `CIE._ciexyz_to_lab`. -/
noncomputable def ciexyz_to_lab (x y z : ℝ) : ℝ × ℝ × ℝ :=
  let f_x := f_lab (x / X_n)
  let f_y := f_lab (y / Y_n)
  let f_z := f_lab (z / Z_n)
  (116 * f_y - 16, 500 * (f_x - f_y), 200 * (f_y - f_z))

/-- `CIE.srgb_to_lab`. -/
noncomputable def srgb_to_lab (r g b : ℕ) : ℝ × ℝ × ℝ :=
  ciexyz_to_lab (srgb_to_ciexyz r g b).1 (srgb_to_ciexyz r g b).2.1
    (srgb_to_ciexyz r g b).2.2

open Classical in
/-- Written from the spec's words (section 4.1), for comparison with the
source embedding `srgb_to_lab`: per-channel gamma expansion. -/
noncomputable def spec_gamma (u : ℝ) : ℝ :=
  if u ≤ 0.04045 then u / 12.92 else ((u + 0.055) / 1.055) ^ (2.4 : ℝ)

open Classical in
/-- Written from the spec's words (section 4.1): the CIE `f` nonlinearity,
`f(t) = t^(1/3)` if `t > (6/29)^3`, else `t*(1/3)*(29/6)^2 + 4/29`. -/
noncomputable def spec_f (t : ℝ) : ℝ :=
  if t > (6 / 29) ^ 3 then t ^ (1 / 3 : ℝ)
  else t * (1 / 3) * (29 / 6) ^ 2 + 4 / 29

/-- Written from the spec's words (section 4.1): normalize each channel by
255, gamma-expand, apply the 3x3 sRGB-to-CIEXYZ matrix as a matrix-vector
product, normalize by the D65 white point, apply `f`, and form
`L = 116 f_y - 16`, `a = 500 (f_x - f_y)`, `b = 200 (f_y - f_z)`. -/
noncomputable def spec_to_lab (r g b : ℕ) : ℝ × ℝ × ℝ :=
  let lr := spec_gamma ((r : ℝ) / 255)
  let lg := spec_gamma ((g : ℝ) / 255)
  let lb := spec_gamma ((b : ℝ) / 255)
  let x := 0.41239080 * lr + 0.35758434 * lg + 0.18048079 * lb
  let y := 0.21263901 * lr + 0.71516868 * lg + 0.07219232 * lb
  let z := 0.01933082 * lr + 0.11919478 * lg + 0.95053215 * lb
  let f_x := spec_f (x / 0.950489)
  let f_y := spec_f (y / 1)
  let f_z := spec_f (z / 1.08884)
  (116 * f_y - 16, 500 * (f_x - f_y), 200 * (f_y - f_z))

/-- Line `C_star_ab_bar = (C_star_1_ab + C_star_2_ab) / 2` of `_ciede2000`. -/
noncomputable def C_star_ab_bar (C_star_1_ab C_star_2_ab : ℝ) : ℝ :=
  (C_star_1_ab + C_star_2_ab) / 2

/-- Line `G_plus = 1 + 0.5 * (1 - ...)` of `_ciede2000`, as a function of the
already-computed square root `(1 / (1 + 25**7 / C_star_ab_bar**7)) ** 0.5`. -/
noncomputable def G_plus (s : ℝ) : ℝ := 1 + 0.5 * (1 - s)

open Classical in
/-- The hue-angle expression of `_ciede2000`:
`0 if b == 0 and a_prime == 0 else radians_to_degrees(atan2(b, a_prime))`. -/
noncomputable def hue_prime (b a : ℝ) : Except PyErr ℝ :=
  if b = 0 ∧ a = 0 then Except.ok 0 else radians_to_degrees (atan2 b a)

open Classical in
/-- The value returned by `hue_prime` (both branches return normally). -/
noncomputable def hue_prime_val (b a : ℝ) : ℝ :=
  if b = 0 ∧ a = 0 then 0 else pyDeg (atan2 b a)

open Classical in
/-- The `Delta_h_prime` branch of `_ciede2000`. -/
noncomputable def Delta_h_prime (C_prime_1 C_prime_2 h_prime_1 h_prime_2 : ℝ) : ℝ :=
  if C_prime_1 = 0 ∨ C_prime_2 = 0 then 0
  else if |h_prime_2 - h_prime_1| ≤ 180 then h_prime_2 - h_prime_1
  else if h_prime_2 - h_prime_1 > 180 then h_prime_2 - h_prime_1 - 360
  else h_prime_2 - h_prime_1 + 360

/-- Line `Delta_H_prime = 2 * (C'1*C'2)**0.5 * sin(radians(Delta_h_prime/2))`
of `_ciede2000`, as a function of the already-computed square root. -/
noncomputable def Delta_H_prime (root_C12 dh : ℝ) : ℝ :=
  2 * root_C12 * Real.sin (radians (dh / 2))

/-- Line `L_prime_bar = (L_1 + L_2) / 2` of `_ciede2000`. -/
noncomputable def L_prime_bar (L_1 L_2 : ℝ) : ℝ := (L_1 + L_2) / 2

/-- Line `C_prime_bar = (C_prime_1 + C_prime_2) / 2` of `_ciede2000`. -/
noncomputable def C_prime_bar (C_prime_1 C_prime_2 : ℝ) : ℝ :=
  (C_prime_1 + C_prime_2) / 2

open Classical in
/-- The `h_prime_bar` branch of `_ciede2000`. -/
noncomputable def h_prime_bar (C_prime_1 C_prime_2 h_prime_1 h_prime_2 : ℝ) : ℝ :=
  if C_prime_1 = 0 ∨ C_prime_2 = 0 then h_prime_1 + h_prime_2
  else if |h_prime_2 - h_prime_1| ≤ 180 then (h_prime_1 + h_prime_2) / 2
  else if h_prime_1 + h_prime_2 < 360 then (h_prime_1 + h_prime_2 + 360) / 2
  else (h_prime_1 + h_prime_2 - 360) / 2

/-- The `T` weighting term of `_ciede2000`, as a function of `h_prime_bar`. -/
noncomputable def T (x : ℝ) : ℝ :=
  1 - 0.17 * Real.cos (radians (x - 30))
    + 0.24 * Real.cos (radians (2 * x))
    + 0.32 * Real.cos (radians (3 * x + 6))
    - 0.2 * Real.cos (radians (4 * x - 63))

/-- `Delta_theta = 30 * exp(-(((h_prime_bar - 275) / 25) ** 2))`. -/
noncomputable def Delta_theta (x : ℝ) : ℝ :=
  30 * Real.exp (-(((x - 275) / 25) ^ 2))

/-- `S_L = 1 + q` as a function of the already-computed quotient
`(0.015 * (L_prime_bar - 50)**2) / (20 + (L_prime_bar - 50)**2)**0.5`. -/
noncomputable def S_L (q : ℝ) : ℝ := 1 + q

/-- `S_C = 1 + 0.045 * C_prime_bar`. -/
noncomputable def S_C (cpb : ℝ) : ℝ := 1 + 0.045 * cpb

/-- `S_H = 1 + 0.015 * C_prime_bar * T`. -/
noncomputable def S_H (cpb t : ℝ) : ℝ := 1 + 0.015 * cpb * t

/-- `R_T = -sin(radians(2 * Delta_theta)) * R_C`. -/
noncomputable def R_T (dtheta rc : ℝ) : ℝ :=
  -Real.sin (radians (2 * dtheta)) * rc

/-- `CIE._ciede2000` from `coloromo/color.py`, with every fallible float
operation (`/` by a non-constant divisor, `** 0.5`, and the hue-angle helper)
threaded through `Except` in the source's evaluation order. -/
noncomputable def ciede2000 (L_1 a_1 b_1 L_2 a_2 b_2 : ℝ) : Except PyErr ℝ :=
  (fsqrt (a_1 ^ 2 + b_1 ^ 2)).bind fun C_star_1_ab =>
  (fsqrt (a_2 ^ 2 + b_2 ^ 2)).bind fun C_star_2_ab =>
  (fdiv TWENTY_FIVE_POWER_SEVEN (C_star_ab_bar C_star_1_ab C_star_2_ab ^ 7)).bind fun q_G =>
  (fdiv 1 (1 + q_G)).bind fun d_G =>
  (fsqrt d_G).bind fun s_G =>
  (fsqrt ((G_plus s_G * a_1) ^ 2 + b_1 ^ 2)).bind fun C_prime_1 =>
  (fsqrt ((G_plus s_G * a_2) ^ 2 + b_2 ^ 2)).bind fun C_prime_2 =>
  (hue_prime b_1 (G_plus s_G * a_1)).bind fun h_prime_1 =>
  (hue_prime b_2 (G_plus s_G * a_2)).bind fun h_prime_2 =>
  (fsqrt (C_prime_1 * C_prime_2)).bind fun root_C12 =>
  (fdiv TWENTY_FIVE_POWER_SEVEN (C_prime_bar C_prime_1 C_prime_2 ^ 7)).bind fun q_R =>
  (fdiv 1 (1 + q_R)).bind fun d_R =>
  (fsqrt d_R).bind fun s_R =>
  (fsqrt (20 + (L_prime_bar L_1 L_2 - 50) ^ 2)).bind fun root_SL =>
  (fdiv (0.015 * (L_prime_bar L_1 L_2 - 50) ^ 2) root_SL).bind fun q_SL =>
  (fdiv (L_2 - L_1) (K_L * S_L q_SL)).bind fun t_L =>
  (fdiv (C_prime_2 - C_prime_1) (K_C * S_C (C_prime_bar C_prime_1 C_prime_2))).bind fun t_C =>
  (fdiv (Delta_H_prime root_C12 (Delta_h_prime C_prime_1 C_prime_2 h_prime_1 h_prime_2))
      (K_H * S_H (C_prime_bar C_prime_1 C_prime_2)
        (T (h_prime_bar C_prime_1 C_prime_2 h_prime_1 h_prime_2)))).bind fun t_H =>
  (fdiv (C_prime_2 - C_prime_1) (K_C * S_C (C_prime_bar C_prime_1 C_prime_2))).bind fun r_C =>
  (fdiv (Delta_H_prime root_C12 (Delta_h_prime C_prime_1 C_prime_2 h_prime_1 h_prime_2))
      (K_H * S_H (C_prime_bar C_prime_1 C_prime_2)
        (T (h_prime_bar C_prime_1 C_prime_2 h_prime_1 h_prime_2)))).bind fun r_H =>
  fsqrt (t_L ^ 2 + t_C ^ 2 + t_H ^ 2 +
    R_T (Delta_theta (h_prime_bar C_prime_1 C_prime_2 h_prime_1 h_prime_2)) (2 * s_R) * r_C * r_H)

/-- Value of `C_star_1_ab` (and `C_star_2_ab`): the chroma of a Lab color. -/
noncomputable def cstar (a b : ℝ) : ℝ := Real.sqrt (a ^ 2 + b ^ 2)

/-- Value of `C_star_ab_bar` on the actual chromas. -/
noncomputable def cbarStar (a_1 b_1 a_2 b_2 : ℝ) : ℝ :=
  C_star_ab_bar (cstar a_1 b_1) (cstar a_2 b_2)

/-- Value of the quotient `25**7 / C_star_ab_bar**7`. -/
noncomputable def qGv (a_1 b_1 a_2 b_2 : ℝ) : ℝ :=
  TWENTY_FIVE_POWER_SEVEN / cbarStar a_1 b_1 a_2 b_2 ^ 7

/-- Value of `1 / (1 + 25**7 / C_star_ab_bar**7)`. -/
noncomputable def dGv (a_1 b_1 a_2 b_2 : ℝ) : ℝ := 1 / (1 + qGv a_1 b_1 a_2 b_2)

/-- Value of the inner square root of `G_plus`. -/
noncomputable def sGv (a_1 b_1 a_2 b_2 : ℝ) : ℝ := Real.sqrt (dGv a_1 b_1 a_2 b_2)

/-- Value of `a_prime_1`. -/
noncomputable def aprime1 (a_1 b_1 a_2 b_2 : ℝ) : ℝ :=
  G_plus (sGv a_1 b_1 a_2 b_2) * a_1

/-- Value of `a_prime_2`. -/
noncomputable def aprime2 (a_1 b_1 a_2 b_2 : ℝ) : ℝ :=
  G_plus (sGv a_1 b_1 a_2 b_2) * a_2

/-- Value of `C_prime_1`. -/
noncomputable def cprime1 (a_1 b_1 a_2 b_2 : ℝ) : ℝ :=
  Real.sqrt (aprime1 a_1 b_1 a_2 b_2 ^ 2 + b_1 ^ 2)

/-- Value of `C_prime_2`. -/
noncomputable def cprime2 (a_1 b_1 a_2 b_2 : ℝ) : ℝ :=
  Real.sqrt (aprime2 a_1 b_1 a_2 b_2 ^ 2 + b_2 ^ 2)

/-- Value of `h_prime_1`. -/
noncomputable def hprime1 (a_1 b_1 a_2 b_2 : ℝ) : ℝ :=
  hue_prime_val b_1 (aprime1 a_1 b_1 a_2 b_2)

/-- Value of `h_prime_2`. -/
noncomputable def hprime2 (a_1 b_1 a_2 b_2 : ℝ) : ℝ :=
  hue_prime_val b_2 (aprime2 a_1 b_1 a_2 b_2)

/-- Value of `(C_prime_1 * C_prime_2) ** 0.5`. -/
noncomputable def rootC12 (a_1 b_1 a_2 b_2 : ℝ) : ℝ :=
  Real.sqrt (cprime1 a_1 b_1 a_2 b_2 * cprime2 a_1 b_1 a_2 b_2)

/-- Value of `25**7 / C_prime_bar**7`. -/
noncomputable def qRv (a_1 b_1 a_2 b_2 : ℝ) : ℝ :=
  TWENTY_FIVE_POWER_SEVEN /
    C_prime_bar (cprime1 a_1 b_1 a_2 b_2) (cprime2 a_1 b_1 a_2 b_2) ^ 7

/-- Value of `1 / (1 + 25**7 / C_prime_bar**7)`. -/
noncomputable def dRv (a_1 b_1 a_2 b_2 : ℝ) : ℝ := 1 / (1 + qRv a_1 b_1 a_2 b_2)

/-- Value of the square root inside `R_C`. -/
noncomputable def sRv (a_1 b_1 a_2 b_2 : ℝ) : ℝ := Real.sqrt (dRv a_1 b_1 a_2 b_2)

/-- Value of `(20 + (L_prime_bar - 50)**2) ** 0.5`. -/
noncomputable def rootSL (L_1 L_2 : ℝ) : ℝ :=
  Real.sqrt (20 + (L_prime_bar L_1 L_2 - 50) ^ 2)

/-- Value of the quotient inside `S_L`. -/
noncomputable def qSLv (L_1 L_2 : ℝ) : ℝ :=
  0.015 * (L_prime_bar L_1 L_2 - 50) ^ 2 / rootSL L_1 L_2

/-- Value of `Delta_L_prime / (K_L * S_L)`. -/
noncomputable def tLv (L_1 L_2 : ℝ) : ℝ :=
  (L_2 - L_1) / (K_L * S_L (qSLv L_1 L_2))

/-- Value of `Delta_C_prime / (K_C * S_C)`. -/
noncomputable def tCv (a_1 b_1 a_2 b_2 : ℝ) : ℝ :=
  (cprime2 a_1 b_1 a_2 b_2 - cprime1 a_1 b_1 a_2 b_2) /
    (K_C * S_C (C_prime_bar (cprime1 a_1 b_1 a_2 b_2) (cprime2 a_1 b_1 a_2 b_2)))

/-- Value of `Delta_H_prime / (K_H * S_H)`. -/
noncomputable def tHv (a_1 b_1 a_2 b_2 : ℝ) : ℝ :=
  Delta_H_prime (rootC12 a_1 b_1 a_2 b_2)
      (Delta_h_prime (cprime1 a_1 b_1 a_2 b_2) (cprime2 a_1 b_1 a_2 b_2)
        (hprime1 a_1 b_1 a_2 b_2) (hprime2 a_1 b_1 a_2 b_2)) /
    (K_H * S_H (C_prime_bar (cprime1 a_1 b_1 a_2 b_2) (cprime2 a_1 b_1 a_2 b_2))
      (T (h_prime_bar (cprime1 a_1 b_1 a_2 b_2) (cprime2 a_1 b_1 a_2 b_2)
        (hprime1 a_1 b_1 a_2 b_2) (hprime2 a_1 b_1 a_2 b_2))))

/-- Value of `R_T`. -/
noncomputable def RTv (a_1 b_1 a_2 b_2 : ℝ) : ℝ :=
  R_T (Delta_theta (h_prime_bar (cprime1 a_1 b_1 a_2 b_2) (cprime2 a_1 b_1 a_2 b_2)
        (hprime1 a_1 b_1 a_2 b_2) (hprime2 a_1 b_1 a_2 b_2)))
    (2 * sRv a_1 b_1 a_2 b_2)

/-- The value `ciede2000` returns when it returns normally. -/
noncomputable def deltaE (L_1 a_1 b_1 L_2 a_2 b_2 : ℝ) : ℝ :=
  Real.sqrt (tLv L_1 L_2 ^ 2 + tCv a_1 b_1 a_2 b_2 ^ 2 + tHv a_1 b_1 a_2 b_2 ^ 2 +
    RTv a_1 b_1 a_2 b_2 * tCv a_1 b_1 a_2 b_2 * tHv a_1 b_1 a_2 b_2)

/-- Failure of a nearest-neighbor query. -/
inductive MatchError where
  | emptyPalette : MatchError
deriving DecidableEq

open Classical in
/-- Modelled from the spec: the Matcher component is absent from the source
(`Coloromo.reduce_image` calls `self.palette.find_nearest`, which is defined
nowhere in the repository).  Following section 4.4 of the spec,
`nearest` fails with `EmptyPalette` on a palette with zero members and
otherwise returns a member attaining the minimum of the perceptual distance
`dist` to the queried color. -/
noncomputable def nearest (dist : RGB → RGB → ℝ) (palette : List RGB) (c : RGB) :
    Except MatchError RGB :=
  match palette with
  | [] => Except.error MatchError.emptyPalette
  | p :: ps => Except.ok (ps.foldl (fun best q => if dist c q < dist c best then q else best) p)

/-- Modelled from the spec: the image reducer replaces every pixel of the
row-major grid by `nearest`, propagating `EmptyPalette`. -/
noncomputable def reduceGrid (dist : RGB → RGB → ℝ) (palette : List RGB)
    (grid : List (List RGB)) : Except MatchError (List (List RGB)) :=
  grid.mapM fun row => row.mapM fun px => nearest dist palette px

end Coloromo

namespace Coloromo

lemma fdiv_ok (x : ℝ) {y : ℝ} (h : y ≠ 0) : fdiv x y = Except.ok (x / y) := by
  unfold fdiv
  exact if_neg h

lemma fdiv_err (x : ℝ) : fdiv x 0 = Except.error PyErr.zeroDivision := by
  unfold fdiv
  exact if_pos rfl

lemma fsqrt_ok {x : ℝ} (h : 0 ≤ x) : fsqrt x = Except.ok (Real.sqrt x) := by
  unfold fsqrt
  exact if_neg (not_lt.mpr h)

lemma okBind {α β : Type} (a : α) (g : α → Except PyErr β) :
    (Except.ok a : Except PyErr α).bind g = g a := rfl

lemma errBind {α β : Type} (e : PyErr) (g : α → Except PyErr β) :
    (Except.error e : Except PyErr α).bind g = Except.error e := rfl

lemma radians_to_degrees_ok {angle : ℝ} (h1 : -Real.pi ≤ angle)
    (h2 : angle ≤ Real.pi) : radians_to_degrees angle = Except.ok (pyDeg angle) := by
  unfold radians_to_degrees pyDeg
  rw [if_neg]
  push_neg
  exact ⟨h2, h1⟩

lemma hue_prime_ok (b a : ℝ) : hue_prime b a = Except.ok (hue_prime_val b a) := by
  unfold hue_prime hue_prime_val
  split_ifs with h
  · rfl
  · exact radians_to_degrees_ok (le_of_lt (Complex.neg_pi_lt_arg _)) (Complex.arg_le_pi _)

lemma pyDeg_nonneg {angle : ℝ} (h1 : -Real.pi ≤ angle) : 0 ≤ pyDeg angle := by
  unfold pyDeg degrees
  split_ifs with h
  · exact mul_nonneg h (by positivity)
  · refine mul_nonneg ?_ (by positivity)
    unfold TAU
    nlinarith [Real.pi_pos]

lemma pyDeg_lt_360 {angle : ℝ} (h2 : angle ≤ Real.pi) : pyDeg angle < 360 := by
  unfold pyDeg degrees TAU
  have hpi := Real.pi_pos
  split_ifs with h
  · have hb : angle * (180 / Real.pi) ≤ Real.pi * (180 / Real.pi) :=
      mul_le_mul_of_nonneg_right h2 (by positivity)
    have he : Real.pi * (180 / Real.pi) = 180 := by field_simp
    linarith
  · have hlt : angle + 2 * Real.pi < 2 * Real.pi := by
      have := not_le.mp (by simpa using h)
      linarith
    have hb : (angle + 2 * Real.pi) * (180 / Real.pi) <
        (2 * Real.pi) * (180 / Real.pi) :=
      mul_lt_mul_of_pos_right hlt (by positivity)
    have he : (2 * Real.pi) * (180 / Real.pi) = 360 := by field_simp; ring
    linarith

/-- Claim C8: for every angle in the closed interval `[-pi, pi]`, the value
returned by `radians_to_degrees` lies in `[0, 360)`. -/
theorem radians_to_degrees_range (angle : ℝ) (h1 : -Real.pi ≤ angle)
    (h2 : angle ≤ Real.pi) :
    ∃ d, radians_to_degrees angle = Except.ok d ∧ 0 ≤ d ∧ d < 360 :=
  ⟨pyDeg angle, radians_to_degrees_ok h1 h2, pyDeg_nonneg h1, pyDeg_lt_360 h2⟩

/-- Witness for C8 at the angle `0`. -/
theorem radians_to_degrees_range_witness :
    -Real.pi ≤ (0 : ℝ) ∧ (0 : ℝ) ≤ Real.pi ∧
      ∃ d, radians_to_degrees 0 = Except.ok d ∧ 0 ≤ d ∧ d < 360 :=
  ⟨by linarith [Real.pi_pos], by linarith [Real.pi_pos],
    radians_to_degrees_range 0 (by linarith [Real.pi_pos]) (by linarith [Real.pi_pos])⟩

/-- Claim C7: `radians_to_degrees` fails with `ValueError` exactly when its
input is strictly outside `[-pi, pi]`, and returns normally on the interval. -/
theorem radians_to_degrees_error_iff (angle : ℝ) :
    (radians_to_degrees angle = Except.error PyErr.valueError ↔
      Real.pi < angle ∨ angle < -Real.pi) ∧
    (-Real.pi ≤ angle ∧ angle ≤ Real.pi →
      ∃ d, radians_to_degrees angle = Except.ok d) := by
  constructor
  · unfold radians_to_degrees
    split_ifs with h
    · exact ⟨fun _ => h, fun _ => rfl⟩
    · refine ⟨fun he => absurd he (by simp), fun hc => absurd hc h⟩
  · intro hin
    exact ⟨pyDeg angle, radians_to_degrees_ok hin.1 hin.2⟩

/-- Witness for C7: the error branch at `4 > pi`, the normal branch at `0`. -/
theorem radians_to_degrees_error_iff_witness :
    radians_to_degrees 4 = Except.error PyErr.valueError ∧
      ∃ d, radians_to_degrees 0 = Except.ok d :=
  ⟨(radians_to_degrees_error_iff 4).1.mpr (Or.inl (by linarith [Real.pi_lt_d2])),
    (radians_to_degrees_error_iff 0).2
      ⟨by linarith [Real.pi_pos], le_of_lt Real.pi_pos⟩⟩

/-- Claim C2 (the Matcher is modelled from the spec, being absent from the
source): a nearest query on an empty palette fails with `EmptyPalette`, and
`reduceGrid` propagates exactly that error. -/
theorem nearest_empty_palette (dist : RGB → RGB → ℝ) (c : RGB) :
    nearest dist [] c = Except.error MatchError.emptyPalette ∧
      reduceGrid dist [] [[c]] = Except.error MatchError.emptyPalette := by
  constructor
  · rfl
  · rfl

/-- Claim C3 fails on the code: `Palette.add` inserts the unpacked integer
channels, so after adding the color `(1, 2, 3)` to an empty palette the
member set is `{1, 2, 3}` and the tuple itself is not a member. -/
theorem palette_add_unpacks_channels :
    Palette.add Palette.init [(1, 2, 3)] =
        [PyObj.int 1, PyObj.int 2, PyObj.int 3] ∧
      PyObj.tup 1 2 3 ∉ Palette.add Palette.init [(1, 2, 3)] := by
  constructor
  · rfl
  · decide

lemma setAdd_nodup {s : List PyObj} {x : PyObj} (h : s.Nodup) :
    (setAdd s x).Nodup := by
  unfold setAdd
  split_ifs with hx
  · exact h
  · refine List.Nodup.append h (List.nodup_singleton x) ?_
    intro a ha hax
    rw [List.mem_singleton] at hax
    exact hx (hax ▸ ha)

lemma setAdd_mem {s : List PyObj} {x y : PyObj} (hy : y ∈ s) :
    y ∈ setAdd s x := by
  unfold setAdd
  split_ifs with hx
  · exact hy
  · exact List.mem_append_left _ hy

lemma foldl_setAdd_nodup (l : List PyObj) :
    ∀ s : List PyObj, s.Nodup → (l.foldl setAdd s).Nodup := by
  induction l with
  | nil => exact fun s h => h
  | cons x xs ih => exact fun s h => ih _ (setAdd_nodup h)

lemma foldl_setAdd_mem (l : List PyObj) :
    ∀ (s : List PyObj) {y : PyObj}, y ∈ s → y ∈ l.foldl setAdd s := by
  induction l with
  | nil => exact fun s _ h => h
  | cons x xs ih => exact fun s _ h => ih _ (setAdd_mem h)

lemma palette_add_nodup (cs : List RGB) :
    ∀ s : List PyObj, s.Nodup → (Palette.add s cs).Nodup := by
  induction cs with
  | nil => exact fun s h => h
  | cons c cs ih => exact fun s h => ih _ (foldl_setAdd_nodup _ _ h)

lemma palette_add_mem (cs : List RGB) :
    ∀ (s : List PyObj) {y : PyObj}, y ∈ s → y ∈ Palette.add s cs := by
  induction cs with
  | nil => exact fun s _ h => h
  | cons c cs ih => exact fun s _ h => ih _ (foldl_setAdd_mem _ _ h)

/-- Claim C10: the palette member set never holds duplicates, and `add`
never removes a member. -/
theorem palette_invariants (s : List PyObj) (cs : List RGB) (h : s.Nodup) :
    (Palette.add s cs).Nodup ∧ ∀ y ∈ s, y ∈ Palette.add s cs :=
  ⟨palette_add_nodup cs s h, fun _ hy => palette_add_mem cs s hy⟩

lemma srgb_to_lab_red_L : (srgb_to_lab 255 0 0).1 = 0 := by
  unfold srgb_to_lab ciexyz_to_lab srgb_to_ciexyz inverse_gamma f_lab
  norm_num [Y_n, SIGMA_CUBED, SIGMA, SIGMA_SQUARED, ONE_THIRD, FOUR_TWENTYNINTHS]

lemma spec_to_lab_red_L :
    (spec_to_lab 255 0 0).1 = 116 * (0.21263901 : ℝ) ^ (1 / 3 : ℝ) - 16 := by
  unfold spec_to_lab spec_gamma spec_f
  norm_num [Real.one_rpow]

/-- Claim C6 fails on the code: `_srgb_to_ciexyz` multiplies each linearised
channel by the sum of one matrix row instead of applying the matrix-vector
product, so at pure red the code and the specified pipeline disagree. -/
theorem srgb_to_lab_deviates_from_spec :
    srgb_to_lab 255 0 0 ≠ spec_to_lab 255 0 0 := by
  intro h
  have h1 := congrArg Prod.fst h
  rw [srgb_to_lab_red_L, spec_to_lab_red_L] at h1
  have hc : (0.21263901 : ℝ) ^ (1 / 3 : ℝ) = 4 / 29 := by linarith
  have h3 : ((0.21263901 : ℝ) ^ (1 / 3 : ℝ)) ^ (3 : ℕ) = 0.21263901 := by
    rw [← Real.rpow_natCast ((0.21263901 : ℝ) ^ (1 / 3 : ℝ)) 3,
      ← Real.rpow_mul (by norm_num)]
    norm_num
  rw [hc] at h3
  norm_num at h3

/-- Witness for C10 on a concrete palette state. -/
theorem palette_invariants_witness :
    ([PyObj.int 5] : List PyObj).Nodup ∧
      ((Palette.add [PyObj.int 5] [(1, 2, 3)]).Nodup ∧
        ∀ y ∈ ([PyObj.int 5] : List PyObj),
          y ∈ Palette.add [PyObj.int 5] [(1, 2, 3)]) :=
  ⟨by decide, palette_invariants [PyObj.int 5] [(1, 2, 3)] (by decide)⟩

lemma TPS_pos : 0 < TWENTY_FIVE_POWER_SEVEN := by
  unfold TWENTY_FIVE_POWER_SEVEN
  norm_num

lemma cstar_nonneg (a b : ℝ) : 0 ≤ cstar a b := by
  unfold cstar
  positivity

lemma cstar_eq_zero_iff (a b : ℝ) : cstar a b = 0 ↔ a = 0 ∧ b = 0 := by
  unfold cstar
  rw [Real.sqrt_eq_zero (by positivity)]
  constructor
  · intro h
    have h1 := (add_eq_zero_iff_of_nonneg (sq_nonneg a) (sq_nonneg b)).mp h
    exact ⟨pow_eq_zero_iff two_ne_zero |>.mp h1.1, pow_eq_zero_iff two_ne_zero |>.mp h1.2⟩
  · rintro ⟨rfl, rfl⟩
    norm_num

lemma cbarStar_nonneg (a_1 b_1 a_2 b_2 : ℝ) : 0 ≤ cbarStar a_1 b_1 a_2 b_2 := by
  unfold cbarStar C_star_ab_bar cstar
  positivity

lemma cbarStar_pos {a_1 b_1 a_2 b_2 : ℝ} (h : cbarStar a_1 b_1 a_2 b_2 ≠ 0) :
    0 < cbarStar a_1 b_1 a_2 b_2 :=
  lt_of_le_of_ne (cbarStar_nonneg a_1 b_1 a_2 b_2) (Ne.symm h)

lemma qGv_pos {a_1 b_1 a_2 b_2 : ℝ} (h : cbarStar a_1 b_1 a_2 b_2 ≠ 0) :
    0 < qGv a_1 b_1 a_2 b_2 := by
  unfold qGv
  exact div_pos TPS_pos (pow_pos (cbarStar_pos h) 7)

lemma dGv_pos {a_1 b_1 a_2 b_2 : ℝ} (h : cbarStar a_1 b_1 a_2 b_2 ≠ 0) :
    0 < dGv a_1 b_1 a_2 b_2 := by
  unfold dGv
  exact div_pos one_pos (by linarith [qGv_pos h])

lemma dGv_le_one {a_1 b_1 a_2 b_2 : ℝ} (h : cbarStar a_1 b_1 a_2 b_2 ≠ 0) :
    dGv a_1 b_1 a_2 b_2 ≤ 1 := by
  unfold dGv
  rw [div_le_one (by linarith [qGv_pos h])]
  linarith [qGv_pos h]

lemma sqrt_le_one_of_le_one {x : ℝ} (h : x ≤ 1) : Real.sqrt x ≤ 1 := by
  have hs := Real.sqrt_le_sqrt h
  simpa [Real.sqrt_one] using hs

lemma sGv_le_one {a_1 b_1 a_2 b_2 : ℝ} (h : cbarStar a_1 b_1 a_2 b_2 ≠ 0) :
    sGv a_1 b_1 a_2 b_2 ≤ 1 := by
  unfold sGv
  exact sqrt_le_one_of_le_one (dGv_le_one h)

lemma G_plus_pos {s : ℝ} (hs : s ≤ 1) : 0 < G_plus s := by
  unfold G_plus
  have h05 : (0 : ℝ) ≤ 0.5 * (1 - s) := mul_nonneg (by norm_num) (by linarith)
  linarith

lemma cprime1_nonneg (a_1 b_1 a_2 b_2 : ℝ) : 0 ≤ cprime1 a_1 b_1 a_2 b_2 := by
  unfold cprime1
  positivity

lemma cprime2_nonneg (a_1 b_1 a_2 b_2 : ℝ) : 0 ≤ cprime2 a_1 b_1 a_2 b_2 := by
  unfold cprime2
  positivity

lemma cprime1_pos {a_1 b_1 a_2 b_2 : ℝ} (hG : 0 < G_plus (sGv a_1 b_1 a_2 b_2))
    (h : ¬(a_1 = 0 ∧ b_1 = 0)) : 0 < cprime1 a_1 b_1 a_2 b_2 := by
  unfold cprime1 aprime1
  apply Real.sqrt_pos.mpr
  rcases not_and_or.mp h with ha | hb
  · have hne : G_plus (sGv a_1 b_1 a_2 b_2) * a_1 ≠ 0 := mul_ne_zero (ne_of_gt hG) ha
    have h2 : 0 < (G_plus (sGv a_1 b_1 a_2 b_2) * a_1) ^ 2 := by positivity
    nlinarith [sq_nonneg b_1]
  · have h2 : 0 < b_1 ^ 2 := by positivity
    nlinarith [sq_nonneg (G_plus (sGv a_1 b_1 a_2 b_2) * a_1)]

lemma cprime2_pos {a_1 b_1 a_2 b_2 : ℝ} (hG : 0 < G_plus (sGv a_1 b_1 a_2 b_2))
    (h : ¬(a_2 = 0 ∧ b_2 = 0)) : 0 < cprime2 a_1 b_1 a_2 b_2 := by
  unfold cprime2 aprime2
  apply Real.sqrt_pos.mpr
  rcases not_and_or.mp h with ha | hb
  · have hne : G_plus (sGv a_1 b_1 a_2 b_2) * a_2 ≠ 0 := mul_ne_zero (ne_of_gt hG) ha
    have h2 : 0 < (G_plus (sGv a_1 b_1 a_2 b_2) * a_2) ^ 2 := by positivity
    nlinarith [sq_nonneg b_2]
  · have h2 : 0 < b_2 ^ 2 := by positivity
    nlinarith [sq_nonneg (G_plus (sGv a_1 b_1 a_2 b_2) * a_2)]

lemma cbarStar_ne_zero_cases {a_1 b_1 a_2 b_2 : ℝ}
    (h : cbarStar a_1 b_1 a_2 b_2 ≠ 0) :
    ¬(a_1 = 0 ∧ b_1 = 0) ∨ ¬(a_2 = 0 ∧ b_2 = 0) := by
  by_contra hc
  push_neg at hc
  obtain ⟨hc1, hc2⟩ := hc
  apply h
  unfold cbarStar C_star_ab_bar
  rw [(cstar_eq_zero_iff a_1 b_1).mpr hc1, (cstar_eq_zero_iff a_2 b_2).mpr hc2]
  norm_num

lemma cpb_pos {a_1 b_1 a_2 b_2 : ℝ} (h : cbarStar a_1 b_1 a_2 b_2 ≠ 0) :
    0 < C_prime_bar (cprime1 a_1 b_1 a_2 b_2) (cprime2 a_1 b_1 a_2 b_2) := by
  have hG : 0 < G_plus (sGv a_1 b_1 a_2 b_2) := G_plus_pos (sGv_le_one h)
  unfold C_prime_bar
  rcases cbarStar_ne_zero_cases h with h1 | h2
  · linarith [cprime1_pos hG h1, cprime2_nonneg a_1 b_1 a_2 b_2]
  · linarith [cprime2_pos hG h2, cprime1_nonneg a_1 b_1 a_2 b_2]

lemma qRv_pos {a_1 b_1 a_2 b_2 : ℝ} (h : cbarStar a_1 b_1 a_2 b_2 ≠ 0) :
    0 < qRv a_1 b_1 a_2 b_2 := by
  unfold qRv
  exact div_pos TPS_pos (pow_pos (cpb_pos h) 7)

lemma dRv_pos {a_1 b_1 a_2 b_2 : ℝ} (h : cbarStar a_1 b_1 a_2 b_2 ≠ 0) :
    0 < dRv a_1 b_1 a_2 b_2 := by
  unfold dRv
  exact div_pos one_pos (by linarith [qRv_pos h])

lemma dRv_le_one {a_1 b_1 a_2 b_2 : ℝ} (h : cbarStar a_1 b_1 a_2 b_2 ≠ 0) :
    dRv a_1 b_1 a_2 b_2 ≤ 1 := by
  unfold dRv
  rw [div_le_one (by linarith [qRv_pos h])]
  linarith [qRv_pos h]

lemma sRv_nonneg (a_1 b_1 a_2 b_2 : ℝ) : 0 ≤ sRv a_1 b_1 a_2 b_2 := by
  unfold sRv
  positivity

lemma sRv_le_one {a_1 b_1 a_2 b_2 : ℝ} (h : cbarStar a_1 b_1 a_2 b_2 ≠ 0) :
    sRv a_1 b_1 a_2 b_2 ≤ 1 := by
  unfold sRv
  exact sqrt_le_one_of_le_one (dRv_le_one h)

lemma T_pos (x : ℝ) : 0 < T x := by
  unfold T
  have c1a := Real.neg_one_le_cos (radians (x - 30))
  have c1b := Real.cos_le_one (radians (x - 30))
  have c2a := Real.neg_one_le_cos (radians (2 * x))
  have c2b := Real.cos_le_one (radians (2 * x))
  have c3a := Real.neg_one_le_cos (radians (3 * x + 6))
  have c3b := Real.cos_le_one (radians (3 * x + 6))
  have c4a := Real.neg_one_le_cos (radians (4 * x - 63))
  have c4b := Real.cos_le_one (radians (4 * x - 63))
  nlinarith

lemma rootSL_pos (L_1 L_2 : ℝ) : 0 < rootSL L_1 L_2 := by
  unfold rootSL
  exact Real.sqrt_pos.mpr (by positivity)

lemma qSLv_nonneg (L_1 L_2 : ℝ) : 0 ≤ qSLv L_1 L_2 := by
  unfold qSLv
  exact div_nonneg (by positivity) (le_of_lt (rootSL_pos L_1 L_2))

lemma S_L_pos (L_1 L_2 : ℝ) : 0 < S_L (qSLv L_1 L_2) := by
  unfold S_L
  linarith [qSLv_nonneg L_1 L_2]

lemma S_C_pos {cpb : ℝ} (h : 0 < cpb) : 0 < S_C cpb := by
  unfold S_C
  nlinarith

lemma S_H_pos {cpb : ℝ} (h : 0 < cpb) (x : ℝ) : 0 < S_H cpb (T x) := by
  unfold S_H
  have hm : 0 < 0.015 * cpb * T x := mul_pos (mul_pos (by norm_num) h) (T_pos x)
  linarith

lemma RTv_bounds {a_1 b_1 a_2 b_2 : ℝ} (h : cbarStar a_1 b_1 a_2 b_2 ≠ 0) :
    -2 ≤ RTv a_1 b_1 a_2 b_2 ∧ RTv a_1 b_1 a_2 b_2 ≤ 2 := by
  have hs0 := sRv_nonneg a_1 b_1 a_2 b_2
  have hs1 := sRv_le_one h
  unfold RTv R_T
  have hna := Real.neg_one_le_sin (radians (2 *
    Delta_theta (h_prime_bar (cprime1 a_1 b_1 a_2 b_2) (cprime2 a_1 b_1 a_2 b_2)
      (hprime1 a_1 b_1 a_2 b_2) (hprime2 a_1 b_1 a_2 b_2))))
  have hnb := Real.sin_le_one (radians (2 *
    Delta_theta (h_prime_bar (cprime1 a_1 b_1 a_2 b_2) (cprime2 a_1 b_1 a_2 b_2)
      (hprime1 a_1 b_1 a_2 b_2) (hprime2 a_1 b_1 a_2 b_2))))
  constructor
  · nlinarith
  · nlinarith

/-- On any input whose mean chroma is nonzero, `ciede2000` runs to completion
and returns `deltaE`. -/
lemma ciede2000_ok (L_1 a_1 b_1 L_2 a_2 b_2 : ℝ)
    (hbar : cbarStar a_1 b_1 a_2 b_2 ≠ 0) :
    ciede2000 L_1 a_1 b_1 L_2 a_2 b_2 =
      Except.ok (deltaE L_1 a_1 b_1 L_2 a_2 b_2) := by
  have hqG := qGv_pos hbar
  have hdG := dGv_pos hbar
  have hcpb := cpb_pos hbar
  have hqR := qRv_pos hbar
  have hdR := dRv_pos hbar
  have hRT := RTv_bounds hbar
  have h1 : fsqrt (a_1 ^ 2 + b_1 ^ 2) = Except.ok (cstar a_1 b_1) :=
    fsqrt_ok (by positivity)
  have h2 : fsqrt (a_2 ^ 2 + b_2 ^ 2) = Except.ok (cstar a_2 b_2) :=
    fsqrt_ok (by positivity)
  have h3 : fdiv TWENTY_FIVE_POWER_SEVEN
      (C_star_ab_bar (cstar a_1 b_1) (cstar a_2 b_2) ^ 7) =
      Except.ok (qGv a_1 b_1 a_2 b_2) :=
    fdiv_ok _ (pow_ne_zero 7 hbar)
  have h4 : fdiv 1 (1 + qGv a_1 b_1 a_2 b_2) = Except.ok (dGv a_1 b_1 a_2 b_2) :=
    fdiv_ok _ (by linarith)
  have h5 : fsqrt (dGv a_1 b_1 a_2 b_2) = Except.ok (sGv a_1 b_1 a_2 b_2) :=
    fsqrt_ok (le_of_lt hdG)
  have h6 : fsqrt ((G_plus (sGv a_1 b_1 a_2 b_2) * a_1) ^ 2 + b_1 ^ 2) =
      Except.ok (cprime1 a_1 b_1 a_2 b_2) :=
    fsqrt_ok (by positivity)
  have h7 : fsqrt ((G_plus (sGv a_1 b_1 a_2 b_2) * a_2) ^ 2 + b_2 ^ 2) =
      Except.ok (cprime2 a_1 b_1 a_2 b_2) :=
    fsqrt_ok (by positivity)
  have h8 : hue_prime b_1 (G_plus (sGv a_1 b_1 a_2 b_2) * a_1) =
      Except.ok (hprime1 a_1 b_1 a_2 b_2) := hue_prime_ok _ _
  have h9 : hue_prime b_2 (G_plus (sGv a_1 b_1 a_2 b_2) * a_2) =
      Except.ok (hprime2 a_1 b_1 a_2 b_2) := hue_prime_ok _ _
  have h10 : fsqrt (cprime1 a_1 b_1 a_2 b_2 * cprime2 a_1 b_1 a_2 b_2) =
      Except.ok (rootC12 a_1 b_1 a_2 b_2) :=
    fsqrt_ok (mul_nonneg (cprime1_nonneg a_1 b_1 a_2 b_2)
      (cprime2_nonneg a_1 b_1 a_2 b_2))
  have h11 : fdiv TWENTY_FIVE_POWER_SEVEN
      (C_prime_bar (cprime1 a_1 b_1 a_2 b_2) (cprime2 a_1 b_1 a_2 b_2) ^ 7) =
      Except.ok (qRv a_1 b_1 a_2 b_2) :=
    fdiv_ok _ (pow_ne_zero 7 (ne_of_gt hcpb))
  have h12 : fdiv 1 (1 + qRv a_1 b_1 a_2 b_2) = Except.ok (dRv a_1 b_1 a_2 b_2) :=
    fdiv_ok _ (by linarith)
  have h13 : fsqrt (dRv a_1 b_1 a_2 b_2) = Except.ok (sRv a_1 b_1 a_2 b_2) :=
    fsqrt_ok (le_of_lt hdR)
  have h14 : fsqrt (20 + (L_prime_bar L_1 L_2 - 50) ^ 2) =
      Except.ok (rootSL L_1 L_2) :=
    fsqrt_ok (by positivity)
  have h15 : fdiv (0.015 * (L_prime_bar L_1 L_2 - 50) ^ 2) (rootSL L_1 L_2) =
      Except.ok (qSLv L_1 L_2) :=
    fdiv_ok _ (ne_of_gt (rootSL_pos L_1 L_2))
  have hKSL : K_L * S_L (qSLv L_1 L_2) ≠ 0 := by
    unfold K_L
    rw [one_mul]
    exact ne_of_gt (S_L_pos L_1 L_2)
  have h16 : fdiv (L_2 - L_1) (K_L * S_L (qSLv L_1 L_2)) =
      Except.ok (tLv L_1 L_2) :=
    fdiv_ok _ hKSL
  have hKSC : K_C * S_C (C_prime_bar (cprime1 a_1 b_1 a_2 b_2)
      (cprime2 a_1 b_1 a_2 b_2)) ≠ 0 := by
    unfold K_C
    rw [one_mul]
    exact ne_of_gt (S_C_pos hcpb)
  have h17 : fdiv (cprime2 a_1 b_1 a_2 b_2 - cprime1 a_1 b_1 a_2 b_2)
      (K_C * S_C (C_prime_bar (cprime1 a_1 b_1 a_2 b_2) (cprime2 a_1 b_1 a_2 b_2))) =
      Except.ok (tCv a_1 b_1 a_2 b_2) :=
    fdiv_ok _ hKSC
  have hKSH : K_H * S_H (C_prime_bar (cprime1 a_1 b_1 a_2 b_2) (cprime2 a_1 b_1 a_2 b_2))
      (T (h_prime_bar (cprime1 a_1 b_1 a_2 b_2) (cprime2 a_1 b_1 a_2 b_2)
        (hprime1 a_1 b_1 a_2 b_2) (hprime2 a_1 b_1 a_2 b_2))) ≠ 0 := by
    unfold K_H
    rw [one_mul]
    exact ne_of_gt (S_H_pos hcpb _)
  have h18 : fdiv (Delta_H_prime (rootC12 a_1 b_1 a_2 b_2)
        (Delta_h_prime (cprime1 a_1 b_1 a_2 b_2) (cprime2 a_1 b_1 a_2 b_2)
          (hprime1 a_1 b_1 a_2 b_2) (hprime2 a_1 b_1 a_2 b_2)))
      (K_H * S_H (C_prime_bar (cprime1 a_1 b_1 a_2 b_2) (cprime2 a_1 b_1 a_2 b_2))
        (T (h_prime_bar (cprime1 a_1 b_1 a_2 b_2) (cprime2 a_1 b_1 a_2 b_2)
          (hprime1 a_1 b_1 a_2 b_2) (hprime2 a_1 b_1 a_2 b_2)))) =
      Except.ok (tHv a_1 b_1 a_2 b_2) :=
    fdiv_ok _ hKSH
  have k1 : 0 ≤ (2 - RTv a_1 b_1 a_2 b_2) *
      (tCv a_1 b_1 a_2 b_2 - tHv a_1 b_1 a_2 b_2) ^ 2 :=
    mul_nonneg (by linarith [hRT.2]) (sq_nonneg _)
  have k2 : 0 ≤ (2 + RTv a_1 b_1 a_2 b_2) *
      (tCv a_1 b_1 a_2 b_2 + tHv a_1 b_1 a_2 b_2) ^ 2 :=
    mul_nonneg (by linarith [hRT.1]) (sq_nonneg _)
  have hrad : 0 ≤ tLv L_1 L_2 ^ 2 + tCv a_1 b_1 a_2 b_2 ^ 2 +
      tHv a_1 b_1 a_2 b_2 ^ 2 +
      RTv a_1 b_1 a_2 b_2 * tCv a_1 b_1 a_2 b_2 * tHv a_1 b_1 a_2 b_2 := by
    nlinarith [k1, k2, sq_nonneg (tLv L_1 L_2)]
  have h21 : fsqrt (tLv L_1 L_2 ^ 2 + tCv a_1 b_1 a_2 b_2 ^ 2 +
      tHv a_1 b_1 a_2 b_2 ^ 2 +
      R_T (Delta_theta (h_prime_bar (cprime1 a_1 b_1 a_2 b_2)
          (cprime2 a_1 b_1 a_2 b_2) (hprime1 a_1 b_1 a_2 b_2)
          (hprime2 a_1 b_1 a_2 b_2)))
        (2 * sRv a_1 b_1 a_2 b_2) * tCv a_1 b_1 a_2 b_2 * tHv a_1 b_1 a_2 b_2) =
      Except.ok (deltaE L_1 a_1 b_1 L_2 a_2 b_2) :=
    fsqrt_ok hrad
  simp only [ciede2000, h1, okBind, h2, h3, h4, h5, h6, h7, h8, h9, h10, h11,
    h12, h13, h14, h15, h16, h17, h18, h21]

/-- On any input whose mean chroma is zero (two gray colors), `ciede2000`
raises `ZeroDivisionError` while computing the `G_plus` factor. -/
lemma ciede2000_grayErr (L_1 a_1 b_1 L_2 a_2 b_2 : ℝ)
    (hbar : cbarStar a_1 b_1 a_2 b_2 = 0) :
    ciede2000 L_1 a_1 b_1 L_2 a_2 b_2 = Except.error PyErr.zeroDivision := by
  have h1 : fsqrt (a_1 ^ 2 + b_1 ^ 2) = Except.ok (cstar a_1 b_1) :=
    fsqrt_ok (by positivity)
  have h2 : fsqrt (a_2 ^ 2 + b_2 ^ 2) = Except.ok (cstar a_2 b_2) :=
    fsqrt_ok (by positivity)
  have h3 : fdiv TWENTY_FIVE_POWER_SEVEN
      (C_star_ab_bar (cstar a_1 b_1) (cstar a_2 b_2) ^ 7) =
      Except.error PyErr.zeroDivision := by
    have hz : C_star_ab_bar (cstar a_1 b_1) (cstar a_2 b_2) ^ 7 = 0 := by
      rw [show C_star_ab_bar (cstar a_1 b_1) (cstar a_2 b_2) =
        cbarStar a_1 b_1 a_2 b_2 from rfl, hbar]
      norm_num
    rw [hz]
    exact fdiv_err _
  simp only [ciede2000, h1, okBind, h2, h3, errBind]

lemma Delta_h_prime_self (c_1 c_2 h : ℝ) : Delta_h_prime c_1 c_2 h h = 0 := by
  unfold Delta_h_prime
  split_ifs with h1 h2 h3
  · rfl
  · exact sub_self h
  · exfalso
    apply h2
    rw [sub_self, abs_zero]
    norm_num
  · exfalso
    apply h2
    rw [sub_self, abs_zero]
    norm_num

lemma Delta_H_prime_zero (r : ℝ) : Delta_H_prime r 0 = 0 := by
  unfold Delta_H_prime radians
  norm_num

/-- On the diagonal, the value computed by `ciede2000` is exactly zero. -/
lemma deltaE_self (L a b : ℝ) : deltaE L a b L a b = 0 := by
  have hc : cprime2 a b a b = cprime1 a b a b := rfl
  have hh : hprime2 a b a b = hprime1 a b a b := rfl
  have htL : tLv L L = 0 := by
    unfold tLv
    rw [sub_self, zero_div]
  have htC : tCv a b a b = 0 := by
    unfold tCv
    rw [hc, sub_self, zero_div]
  have htH : tHv a b a b = 0 := by
    unfold tHv
    rw [hc, hh, Delta_h_prime_self, Delta_H_prime_zero, zero_div]
  unfold deltaE
  rw [htL, htC, htH]
  norm_num

/-- Claim C1 fails on the code: at a pair of zero-chroma (gray) colors the
`G_plus` factor divides `25**7` by `C_star_ab_bar**7 = 0` and the call
raises `ZeroDivisionError` instead of completing. -/
theorem ciede2000_gray_zero_division :
    ciede2000 0 0 0 0 0 0 = Except.error PyErr.zeroDivision := by
  apply ciede2000_grayErr
  unfold cbarStar C_star_ab_bar cstar
  norm_num

/-- Counterexample for C4 as stated: on a gray color the code raises instead
of returning `0`. -/
theorem delta_e_self_gray_counterexample :
    ciede2000 50 0 0 50 0 0 = Except.error PyErr.zeroDivision := by
  apply ciede2000_grayErr
  unfold cbarStar C_star_ab_bar cstar
  norm_num

/-- Claim C4, amended: for every Lab color of nonzero chroma,
`delta_e(c, c)` returns exactly `0`. -/
theorem delta_e_self_eq_zero (L a b : ℝ) (h : ¬(a = 0 ∧ b = 0)) :
    ciede2000 L a b L a b = Except.ok 0 := by
  have hbar : cbarStar a b a b ≠ 0 := by
    intro h0
    unfold cbarStar C_star_ab_bar at h0
    have hc : cstar a b = 0 := by linarith [cstar_nonneg a b]
    exact h ((cstar_eq_zero_iff a b).mp hc)
  rw [ciede2000_ok L a b L a b hbar, deltaE_self]

/-- Witness for the amended C4 at the non-gray color `(50, 1, 0)`. -/
theorem delta_e_self_eq_zero_witness :
    ¬((1 : ℝ) = 0 ∧ (0 : ℝ) = 0) ∧ ciede2000 50 1 0 50 1 0 = Except.ok 0 :=
  ⟨by norm_num, delta_e_self_eq_zero 50 1 0 (by norm_num)⟩

/-- Counterexample for C5 as stated: on a pair of gray colors the code
raises instead of returning a non-negative value. -/
theorem delta_e_nonneg_counterexample :
    ciede2000 50 0 0 70 0 0 = Except.error PyErr.zeroDivision := by
  apply ciede2000_grayErr
  unfold cbarStar C_star_ab_bar cstar
  norm_num

/-- Claim C5, amended: whenever the two Lab colors are not both of zero
chroma, `delta_e` returns a value, and that value is non-negative (the
radicand of the final square root is non-negative despite the signed `R_T`
cross term). -/
theorem delta_e_nonneg (L_1 a_1 b_1 L_2 a_2 b_2 : ℝ)
    (h : ¬(a_1 = 0 ∧ b_1 = 0 ∧ a_2 = 0 ∧ b_2 = 0)) :
    ∃ v, ciede2000 L_1 a_1 b_1 L_2 a_2 b_2 = Except.ok v ∧ 0 ≤ v := by
  have hbar : cbarStar a_1 b_1 a_2 b_2 ≠ 0 := by
    intro h0
    unfold cbarStar C_star_ab_bar at h0
    have hc1 : cstar a_1 b_1 = 0 := by
      linarith [cstar_nonneg a_1 b_1, cstar_nonneg a_2 b_2]
    have hc2 : cstar a_2 b_2 = 0 := by
      linarith [cstar_nonneg a_1 b_1, cstar_nonneg a_2 b_2]
    obtain ⟨ha1, hb1⟩ := (cstar_eq_zero_iff a_1 b_1).mp hc1
    obtain ⟨ha2, hb2⟩ := (cstar_eq_zero_iff a_2 b_2).mp hc2
    exact h ⟨ha1, hb1, ha2, hb2⟩
  refine ⟨deltaE L_1 a_1 b_1 L_2 a_2 b_2, ciede2000_ok _ _ _ _ _ _ hbar, ?_⟩
  unfold deltaE
  exact Real.sqrt_nonneg _

/-- Witness for the amended C5 at a pair with one non-gray color. -/
theorem delta_e_nonneg_witness :
    ¬((1 : ℝ) = 0 ∧ (0 : ℝ) = 0 ∧ (0 : ℝ) = 0 ∧ (0 : ℝ) = 0) ∧
      ∃ v, ciede2000 50 1 0 60 0 0 = Except.ok v ∧ 0 ≤ v :=
  ⟨by norm_num, delta_e_nonneg 50 1 0 60 0 0 (by norm_num)⟩

/-- Claim C9: `ciede2000` never surfaces the `ValueError` of
`radians_to_degrees` — every hue angle it converts comes from `atan2`, whose
range is within `[-pi, pi]`, and the `atan2(0, 0)` case is guarded. -/
theorem ciede2000_no_invalid_angle (L_1 a_1 b_1 L_2 a_2 b_2 : ℝ) :
    ciede2000 L_1 a_1 b_1 L_2 a_2 b_2 ≠ Except.error PyErr.valueError := by
  by_cases hbar : cbarStar a_1 b_1 a_2 b_2 = 0
  · rw [ciede2000_grayErr L_1 a_1 b_1 L_2 a_2 b_2 hbar]
    simp
  · rw [ciede2000_ok L_1 a_1 b_1 L_2 a_2 b_2 hbar]
    simp

end Coloromo
